import Mathlib

/-!
Verification of the real-estate financial-modeling core of the repository
(`realestate-financial-tool`): the interest-rate leaf, the loan payment
formula, the cash-flow analyzer, the break-even solvers, the scenario
engine, the multi-year projection engine and the IRR bisection solver.

Numeric model: the Go code computes on `shopspring/decimal` (exact decimal
coefficients) and `float64` inputs; both are embedded as `ℚ` with exact
field arithmetic (division by zero yields 0 in `ℚ`; no branch below divides
by zero on the inputs the theorems quantify over, except where noted).
`int64(x)` conversions (truncation toward zero) and `decimal.Round`
(half away from zero) are modelled explicitly.
-/

namespace RealEstate

/-- Go's `int64(x)` conversion of a non-NaN float: truncation toward zero. -/
def goInt64 (q : ℚ) : ℤ :=
  if 0 ≤ q then ⌊q⌋ else ⌈q⌉

/-- `decimal.Decimal.Round(0)`: rounding to an integer, halves away from zero. -/
def decRound0 (q : ℚ) : ℚ :=
  if 0 ≤ q then (⌊q + 1 / 2⌋ : ℤ) else -((⌊-q + 1 / 2⌋ : ℤ) : ℚ)

/-- `decimal.Decimal.Sign()`: `-1`, `0` or `1`. -/
def decSign (q : ℚ) : ℤ :=
  if q < 0 then -1 else if q = 0 then 0 else 1

/-! ## Decimal Interest Rate (`realestate/financing/interes-rate.go`) -/

/-- `interestRate`: the one implementation of the `InterestRate` interface;
`rate` is the decimal representation (`0.05` for 5%). -/
structure InterestRate where
  rate : ℚ
deriving DecidableEq, Inhabited

/-- `NewInterestRate`: builds the rate from a percentage
(`pointDevider = 100`). -/
def NewInterestRate (percent : ℚ) : InterestRate :=
  { rate := percent / 100 }

/-- `interestRate.Decimal()`. -/
def InterestRate.Decimal (ir : InterestRate) : ℚ := ir.rate

/-- `interestRate.Points()`: `rate * (pointDevider * 100)`. -/
def InterestRate.Points (ir : InterestRate) : ℚ := ir.rate * (100 * 100)

/-- Decimal rendering of a rational: the digits Go's `%g` verb prints for the
short terminating decimals produced by `InterestRate.String` (no exponent
form, up to 17 fractional digits — enough for every exactly representable
value that reaches it in this code base). -/
def fracDigits : ℕ → ℕ → ℕ → String
  | 0, _, _ => ""
  | _, 0, _ => ""
  | fuel + 1, r, d =>
    let r10 := r * 10
    Nat.repr (r10 / d) ++ fracDigits fuel (r10 % d) d

/-- Go's `fmt.Sprintf("%g", x)` on the terminating decimals at hand. -/
def goFmtG (q : ℚ) : String :=
  let sign := if q < 0 then "-" else ""
  let n := q.num.natAbs
  let d := q.den
  let fr := fracDigits 17 (n % d) d
  sign ++ Nat.repr (n / d) ++ (if fr = "" then "" else "." ++ fr)

/-- `interestRate.String()`: the rate times `pointDevider`, `%g`-rendered,
with a percent sign. -/
def InterestRate.String (ir : InterestRate) : String :=
  goFmtG (ir.rate * 100) ++ "%"

/-! ## Loan (`realestate/financing/loan.go`) -/

/-- `LoanTerm`: the four-value term enumeration. -/
inductive LoanTerm where
  | Term30Years
  | Term20Years
  | Term15Years
  | Term10Years
deriving DecidableEq, Inhabited

/-- `LoanTerm.Years()`. -/
def LoanTerm.Years : LoanTerm → ℕ
  | .Term30Years => 30
  | .Term20Years => 20
  | .Term15Years => 15
  | .Term10Years => 10

/-- `Loan`: the fields consumed by the payment and schedule computations.
The start/end dates and the rounding-policy fields (`EnableRounding`,
`RoundingPlaces`, `RoundingErrorTolerance`) only feed the report and chart
code and the schedule's dates, not the amounts the claims are about, and are
omitted. -/
structure Loan where
  HomePrice : ℚ
  DownPayment : ℚ
  InterestRate : InterestRate
  TermYears : ℕ
deriving DecidableEq, Inhabited

/-- `NewLoan`: called with `int64` home price and down payment and a percent
interest rate; the dates and rounding fields it sets are omitted (see
`Loan`). -/
def NewLoan (homePrice downPayment : ℤ) (interestRate : ℚ)
    (years : LoanTerm) : Loan :=
  { HomePrice := (homePrice : ℚ)
    DownPayment := (downPayment : ℚ)
    InterestRate := NewInterestRate interestRate
    TermYears := years.Years }

/-- `Loan.MonthlyPayment()`: `0` when the monthly rate or the period count is
zero, otherwise `r·P·(1+r)^n / ((1+r)^n − 1)`. -/
def Loan.MonthlyPayment (l : Loan) : ℚ :=
  let P := l.HomePrice - l.DownPayment
  let r := l.InterestRate.Decimal / 12
  let n := l.TermYears * 12
  if r = 0 ∨ n = 0 then 0
  else r * P * (1 + r) ^ n / ((1 + r) ^ n - 1)

/-- `Loan.LoanAmount()`. -/
def Loan.LoanAmount (l : Loan) : ℚ := l.HomePrice - l.DownPayment

/-! ## Amortization schedule

The repository computes the schedule in `internal/gofinancial`
(imported by `loan.go` as `realestate-financial-tool/internal/gofinancial`),
whose source files are not under `src/`. -/

/-- One row of the amortization table (`gofinancial.Row`): payment, interest
portion, principal portion and running balance (the period end date is
omitted). -/
structure AmortRow where
  Payment : ℚ
  Interest : ℚ
  Principal : ℚ
  Balance : ℚ
deriving DecidableEq, Inhabited

/-- Modelled from the spec: the row generation of the amortization engine
(`internal/gofinancial`, not under `src/`): for period `i = 1..n`,
`interest_i = balance_{i-1} · r`, `principal_i = M − interest_i`,
`balance_i = balance_{i-1} − principal_i`, `balance_0 = P`, where `M` is the
monthly payment. The configurable rounding of monetary outputs is not
modelled (the loans built by this code pass tolerance 0; every quantity a
claim touches is rounding-invariant there). -/
def amortRowsAux (M r : ℚ) : ℕ → ℚ → List AmortRow
  | 0, _ => []
  | k + 1, bal =>
    let interest := bal * r
    let principal := M - interest
    let bal' := bal - principal
    { Payment := M, Interest := interest, Principal := principal,
      Balance := bal' } :: amortRowsAux M r k bal'

/-- Modelled from the spec: `Loan.AmortizationSchedule()` — the engine's `n`
rows for the loan's principal, monthly rate and period count; the error
return is always `nil` for the loans this repository builds (term years come
from the `LoanTerm` enumeration, hence are positive). -/
def Loan.AmortizationSchedule (l : Loan) : List AmortRow :=
  amortRowsAux l.MonthlyPayment (l.InterestRate.Decimal / 12)
    (l.TermYears * 12) (l.HomePrice - l.DownPayment)

/-- `Loan.GetTotalInterest()`: the interest column summed over the schedule. -/
def Loan.GetTotalInterest (l : Loan) : ℚ :=
  (l.AmortizationSchedule.map (fun row => row.Interest)).sum

/-! ## Property data model (`realestate/property/unit.go`, `financial.go`,
part_001) -/

/-- `Unit`: a rental unit (the `uuid.UUID` is kept as a string). -/
structure Unit where
  Uuid : String
  Name : String
  Bedrooms : ℤ
  Bathrooms : ℤ
  Size : ℚ
  Rent : ℚ
  Occupied : Bool
deriving DecidableEq, Inhabited

/-- `ExpensesMonthly`. -/
structure ExpensesMonthly where
  Taxes : ℚ
  Insurance : ℚ
  PMI : ℚ
  Utilities : ℚ
  RepairsMaintenance : ℚ
  ManagementFee : ℚ
  OtherExpenses : ℚ
  CapitalReserves : ℚ
  VacancyRate : ℚ
deriving DecidableEq, Inhabited

/-- `ExpensesMonthly.TotalMonthly()`. -/
def ExpensesMonthly.TotalMonthly (e : ExpensesMonthly) : ℚ :=
  e.Taxes + e.Insurance + e.Utilities + e.RepairsMaintenance +
    e.ManagementFee + e.OtherExpenses + e.CapitalReserves + e.PMI

/-- `ExpensesMonthly.TotalYearly()`. -/
def ExpensesMonthly.TotalYearly (e : ExpensesMonthly) : ℚ :=
  e.TotalMonthly * 12

/-- `Financial`: `InterestRate` is in basis points (`700` = 7%). -/
structure Financial where
  AskingPrice : ℚ
  PurchasePrice : ℚ
  DownPayment : ℚ
  LoanAmount : ℚ
  InterestRate : ℚ
  LoanTermYears : LoanTerm
  Expenses : ExpensesMonthly
deriving DecidableEq, Inhabited

/-- `Financial.Normalize()`: a zero down payment defaults to 20% of a
positive purchase price, then a zero loan amount defaults to price minus
down payment. In Go this mutates the struct through its pointer; here the
updated value is returned and callers thread it. -/
def Financial.Normalize (f : Financial) : Financial :=
  let f1 :=
    if f.DownPayment = 0 ∧ 0 < f.PurchasePrice then
      { f with DownPayment := f.PurchasePrice * (20 / 100) }
    else f
  if f1.LoanAmount = 0 ∧ 0 < f1.PurchasePrice then
    { f1 with LoanAmount := f1.PurchasePrice - f1.DownPayment }
  else f1

/-- `Financial.InterestRatePercent()`: basis points to percent. -/
def Financial.InterestRatePercent (f : Financial) : ℚ :=
  f.InterestRate / 100

/-- `Financial.Loan()`: normalizes (in Go: in place), then builds the loan
from the `int64`-truncated purchase price and down payment and the percent
rate. -/
def Financial.Loan (f : Financial) : Loan :=
  let fn := f.Normalize
  NewLoan (goInt64 fn.PurchasePrice) (goInt64 fn.DownPayment)
    fn.InterestRatePercent fn.LoanTermYears

/-- `Property` (part_001). -/
structure Property where
  PropertyName : String
  Address : String
  City : String
  State : String
  ZipCode : String
  County : String
  YearBuilt : ℤ
  NumberOfUnits : ℤ
  BuildingSF : ℚ
  LotSF : ℚ
  Units : List Unit
  Financial : Financial
deriving DecidableEq, Inhabited

/-! ## Cash Flow Analyzer (`realestate/property/cashflow.go`) -/

/-- `CashFlowAnalysis`. -/
structure CashFlowAnalysis where
  MonthlyGrossIncome : ℚ
  AnnualGrossIncome : ℚ
  MonthlyExpenses : ℚ
  AnnualExpenses : ℚ
  MonthlyNOI : ℚ
  AnnualNOI : ℚ
  MonthlyMortgage : ℚ
  AnnualMortgage : ℚ
  MonthlyCashFlow : ℚ
  AnnualCashFlow : ℚ
  CapRate : ℚ
  CashOnCash : ℚ
  GRM : ℚ
  DSCR : ℚ
  BreakEvenRatio : ℚ
  TotalInvestment : ℚ
  PurchasePrice : ℚ
  DownPayment : ℚ
  LoanAmount : ℚ
  InterestRate : ℚ
  LoanTermYears : ℕ
deriving DecidableEq, Inhabited

/-- `AnalyzeCashFlow`: income, expenses, NOI, mortgage, cash flow, then the
guarded ratios. `p.Financial.Loan()` normalizes the property's `Financial`
through its pointer, so the investment fields read after it (purchase price,
down payment, loan amount, rate, term) see the normalized values; the
ratios left at zero by a failed `> 0` guard keep the struct's zero value. -/
def AnalyzeCashFlow (p : Property) : CashFlowAnalysis :=
  let monthlyIncome := (p.Units.map (fun u => u.Rent)).sum
  let monthlyGrossIncome := monthlyIncome
  let annualGrossIncome := monthlyIncome * 12
  let monthlyExpenses := p.Financial.Expenses.TotalMonthly
  let annualExpenses := p.Financial.Expenses.TotalYearly
  let monthlyNOI := monthlyGrossIncome - monthlyExpenses
  let annualNOI := annualGrossIncome - annualExpenses
  let loan := p.Financial.Loan
  let fin := p.Financial.Normalize
  let monthlyMortgage := |loan.MonthlyPayment|
  let annualMortgage := monthlyMortgage * 12
  let monthlyCashFlow := monthlyNOI - monthlyMortgage
  let annualCashFlow := annualNOI - annualMortgage
  let purchasePrice := fin.PurchasePrice
  let downPayment := fin.DownPayment
  { MonthlyGrossIncome := monthlyGrossIncome
    AnnualGrossIncome := annualGrossIncome
    MonthlyExpenses := monthlyExpenses
    AnnualExpenses := annualExpenses
    MonthlyNOI := monthlyNOI
    AnnualNOI := annualNOI
    MonthlyMortgage := monthlyMortgage
    AnnualMortgage := annualMortgage
    MonthlyCashFlow := monthlyCashFlow
    AnnualCashFlow := annualCashFlow
    CapRate :=
      if 0 < purchasePrice then annualNOI / purchasePrice * 100 else 0
    CashOnCash :=
      if 0 < downPayment then annualCashFlow / downPayment * 100 else 0
    GRM :=
      if 0 < annualGrossIncome then purchasePrice / annualGrossIncome else 0
    DSCR :=
      if 0 < annualMortgage then annualNOI / annualMortgage else 0
    BreakEvenRatio :=
      if 0 < annualGrossIncome then
        (annualExpenses + annualMortgage) / annualGrossIncome * 100
      else 0
    TotalInvestment := downPayment
    PurchasePrice := purchasePrice
    DownPayment := downPayment
    LoanAmount := fin.LoanAmount
    InterestRate := fin.InterestRatePercent
    LoanTermYears := fin.LoanTermYears.Years }

/-- `CashFlowAnalysis.IsCashFlowPositive()`. -/
def CashFlowAnalysis.IsCashFlowPositive (a : CashFlowAnalysis) : Bool :=
  decide (0 < a.MonthlyCashFlow)

/-! ## Scenario Engine and Break-Even Solver
(`realestate/property/scenarios.go`) -/

/-- `Scenario`: overrides for a what-if analysis. -/
structure Scenario where
  Name : String
  DownPayment : ℚ
  InterestRate : ℚ
  LoanTerm : LoanTerm
  RentMultiplier : ℚ
deriving DecidableEq, Inhabited

/-- `ScenarioResult`. -/
structure ScenarioResult where
  Scenario : Scenario
  MonthlyCashFlow : ℚ
  AnnualCashFlow : ℚ
  CashOnCash : ℚ
  CapRate : ℚ
  IsPositive : Bool
deriving DecidableEq, Inhabited

/-- `analyzeScenario`: a fresh `Financial` with the overrides, a fresh
property with per-unit copies (rent scaled by the multiplier), then the cash
flow analysis on the copy. -/
def analyzeScenario (p : Property) (scenario : Scenario) : ScenarioResult :=
  let modifiedFinancial : Financial :=
    { AskingPrice := p.Financial.AskingPrice
      PurchasePrice := p.Financial.PurchasePrice
      DownPayment := scenario.DownPayment
      LoanAmount := p.Financial.PurchasePrice - scenario.DownPayment
      InterestRate := scenario.InterestRate
      LoanTermYears := scenario.LoanTerm
      Expenses := p.Financial.Expenses }
  let modifiedProperty : Property :=
    { p with
      Financial := modifiedFinancial
      Units := p.Units.map (fun u =>
        { u with Rent := u.Rent * scenario.RentMultiplier }) }
  let analysis := AnalyzeCashFlow modifiedProperty
  { Scenario := scenario
    MonthlyCashFlow := analysis.MonthlyCashFlow
    AnnualCashFlow := analysis.AnnualCashFlow
    CashOnCash := analysis.CashOnCash
    CapRate := analysis.CapRate
    IsPositive := analysis.IsCashFlowPositive }

/-- `CompareScenarios`. -/
def CompareScenarios (p : Property) (scenarios : List Scenario) :
    List ScenarioResult :=
  scenarios.map (fun scenario => analyzeScenario p scenario)

/-- `FindBreakEvenRent`: zero for an empty unit list, otherwise total
monthly cost divided by the unit count. -/
def FindBreakEvenRent (p : Property) : ℚ :=
  if p.Units.length = 0 then 0
  else
    let expenses := p.Financial.Expenses.TotalMonthly
    let mortgage := |p.Financial.Loan.MonthlyPayment|
    let totalMonthlyCost := expenses + mortgage
    totalMonthlyCost / (p.Units.length : ℚ)

/-- The scenario `FindBreakEvenDownPayment` tests at each midpoint: the
candidate down payment, rate/term from the base property, rents unchanged. -/
def searchScenario (p : Property) (mid : ℚ) : Scenario :=
  { Name := "test"
    DownPayment := mid
    InterestRate := p.Financial.InterestRate
    LoanTerm := p.Financial.LoanTermYears
    RentMultiplier := 1 }

/-- The bisection loop of `FindBreakEvenDownPayment`, returning the final
`(low, high)` interval (the source keeps the two variables and returns
`high.Round(0)`; returning the pair lets the invariants on both ends be
stated). `mid.InexactFloat64()` — exact for the dyadic midpoints arising
here — is the identity in the `ℚ` model. The loop terminates because the
interval halves exactly at each iteration. -/
def bisectDownPayment (p : Property) (low high : ℚ) : ℚ × ℚ :=
  if h : 100 < high - low then
    if (analyzeScenario p (searchScenario p ((low + high) / 2))).IsPositive then
      bisectDownPayment p low ((low + high) / 2)
    else
      bisectDownPayment p ((low + high) / 2) high
  else (low, high)
termination_by (⌈(high - low) / 100⌉).toNat
decreasing_by
  · have key : ∀ g : ℚ, 100 < g →
        (⌈g / 2 / 100⌉).toNat < (⌈g / 100⌉).toNat := by
      intro g hg
      have h2 : (2 : ℤ) ≤ ⌈g / 100⌉ := by
        rw [Int.le_ceil_iff]
        push_cast
        linarith
      have hle : ⌈g / 2 / 100⌉ ≤ ⌈g / 100⌉ - 1 := by
        rw [Int.ceil_le]
        push_cast
        have hgc : g / 100 ≤ (⌈g / 100⌉ : ℚ) := Int.le_ceil _
        have h2q : (2 : ℚ) ≤ (⌈g / 100⌉ : ℚ) := by exact_mod_cast h2
        linarith
      omega
    have he : (low + high) / 2 - low = (high - low) / 2 := by ring
    rw [he]
    exact key _ h
  · have key : ∀ g : ℚ, 100 < g →
        (⌈g / 2 / 100⌉).toNat < (⌈g / 100⌉).toNat := by
      intro g hg
      have h2 : (2 : ℤ) ≤ ⌈g / 100⌉ := by
        rw [Int.le_ceil_iff]
        push_cast
        linarith
      have hle : ⌈g / 2 / 100⌉ ≤ ⌈g / 100⌉ - 1 := by
        rw [Int.ceil_le]
        push_cast
        have hgc : g / 100 ≤ (⌈g / 100⌉ : ℚ) := Int.le_ceil _
        have h2q : (2 : ℚ) ≤ (⌈g / 100⌉ : ℚ) := by exact_mod_cast h2
        linarith
      omega
    have he : high - (low + high) / 2 = (high - low) / 2 := by ring
    rw [he]
    exact key _ h

/-- `FindBreakEvenDownPayment`: `-1` when income cannot cover expenses even
with no mortgage; otherwise the bisection's final upper bound, rounded to
the nearest dollar. -/
def FindBreakEvenDownPayment (p : Property) : ℚ :=
  let monthlyIncome := (p.Units.map (fun u => u.Rent)).sum
  let expenses := p.Financial.Expenses.TotalMonthly
  let availableForMortgage := monthlyIncome - expenses
  if availableForMortgage ≤ 0 then -1
  else decRound0 (bisectDownPayment p 0 p.Financial.PurchasePrice).2

/-! ## Multi-Year Projection Engine (part_000) -/

/-- `ProjectionConfig` (`Years` is a Go `int`; the loop `1..Years` emits
nothing for a non-positive count, so `ℕ` loses no reachable behavior). -/
structure ProjectionConfig where
  Years : ℕ
  RentGrowthRate : ℚ
  ExpenseGrowthRate : ℚ
  AppreciationRate : ℚ
  VacancyRate : ℚ
deriving DecidableEq, Inhabited

/-- `YearlyProjection`. -/
structure YearlyProjection where
  Year : ℕ
  GrossIncome : ℚ
  VacancyLoss : ℚ
  EffectiveIncome : ℚ
  Expenses : ℚ
  NOI : ℚ
  MortgagePayment : ℚ
  CashFlow : ℚ
  CumulativeCF : ℚ
  PropertyValue : ℚ
  LoanBalance : ℚ
  PrincipalPaid : ℚ
  Equity : ℚ
  EquityAtSale : ℚ
  TotalReturn : ℚ
  CashOnCash : ℚ
deriving DecidableEq, Inhabited

/-- The data `ProjectCashFlow` fixes before its year loop. -/
structure ProjectionEnv where
  config : ProjectionConfig
  downPayment : ℚ
  annualMortgage : ℚ
  schedule : List AmortRow
  initialLoanAmount : ℚ
  termYears : ℕ
deriving Inhabited

/-- One iteration of `ProjectCashFlow`'s loop body at `year`, on the running
state (annual rent, expenses and property value, already grown for this
year when `year > 1`) and the cumulative cash flow so far; returns the
emitted row and the new cumulative cash flow. -/
def projectYearRow (env : ProjectionEnv) (year : ℕ)
    (cumulativeCF rent expenses value : ℚ) : YearlyProjection × ℚ :=
  let grossIncome := rent
  let vacancyLoss := rent * env.config.VacancyRate
  let effectiveIncome := grossIncome - vacancyLoss
  let noi := effectiveIncome - expenses
  let cashFlow := noi - env.annualMortgage
  let cumulativeCF' := cumulativeCF + cashFlow
  -- Loan balance: schedule branch (the schedule is always available in this
  -- model, see `Loan.AmortizationSchedule`) or the linear fallback.
  let monthIndex := year * 12 - 1
  let principalPaid :=
    if monthIndex < env.schedule.length then
      ((env.schedule.take (monthIndex + 1)).map
        (fun row => |row.Principal|)).sum
    else if 0 < env.termYears - year then
      env.initialLoanAmount -
        env.initialLoanAmount *
          (((env.termYears - year : ℕ) : ℚ) / (env.termYears : ℚ))
    else env.initialLoanAmount
  let loanBalance :=
    if monthIndex < env.schedule.length then
      env.initialLoanAmount - principalPaid
    else if 0 < env.termYears - year then
      env.initialLoanAmount *
        (((env.termYears - year : ℕ) : ℚ) / (env.termYears : ℚ))
    else 0
  ({ Year := year
     GrossIncome := grossIncome
     VacancyLoss := vacancyLoss
     EffectiveIncome := effectiveIncome
     Expenses := expenses
     NOI := noi
     MortgagePayment := env.annualMortgage
     CashFlow := cashFlow
     CumulativeCF := cumulativeCF'
     PropertyValue := value
     LoanBalance := loanBalance
     PrincipalPaid := principalPaid
     Equity := env.downPayment + principalPaid
     EquityAtSale := value - loanBalance
     TotalReturn := cumulativeCF' + principalPaid
     CashOnCash :=
       if 0 < env.downPayment then cashFlow / env.downPayment * 100
       else 0 },
   cumulativeCF')

/-- `ProjectCashFlow`'s loop: `remaining` years starting at `year`, growth
applied at the top of each iteration except the very first calendar year. -/
def projectLoop (env : ProjectionEnv) :
    ℕ → ℕ → ℚ → ℚ → ℚ → ℚ → List YearlyProjection
  | _, 0, _, _, _, _ => []
  | year, remaining + 1, cumulativeCF, rent, expenses, value =>
    let rent' :=
      if 1 < year then rent * (1 + env.config.RentGrowthRate) else rent
    let expenses' :=
      if 1 < year then expenses * (1 + env.config.ExpenseGrowthRate)
      else expenses
    let value' :=
      if 1 < year then value * (1 + env.config.AppreciationRate) else value
    let step := projectYearRow env year cumulativeCF rent' expenses' value'
    step.1 :: projectLoop env (year + 1) remaining step.2 rent' expenses' value'

/-- `ProjectCashFlow`: base values from the property, the loan (whose
construction normalizes the property's `Financial` in place, so
`p.Financial.LoanAmount` is read normalized at the balance step while the
down payment was read before), then the year loop `1..Years`. -/
def ProjectCashFlow (p : Property) (config : ProjectionConfig) :
    List YearlyProjection :=
  let baseMonthlyRent := (p.Units.map (fun u => u.Rent)).sum
  let baseAnnualRent := baseMonthlyRent * 12
  let baseAnnualExpenses := p.Financial.Expenses.TotalYearly
  let propertyValue := p.Financial.PurchasePrice
  let downPayment := p.Financial.DownPayment
  let loan := p.Financial.Loan
  let annualMortgage := |loan.MonthlyPayment| * 12
  let env : ProjectionEnv :=
    { config := config
      downPayment := downPayment
      annualMortgage := annualMortgage
      schedule := loan.AmortizationSchedule
      initialLoanAmount := (p.Financial.Normalize).LoanAmount
      termYears := p.Financial.LoanTermYears.Years }
  projectLoop env 1 config.Years 0 baseAnnualRent baseAnnualExpenses
    propertyValue

/-! ## IRR Solver (part_000) -/

/-- `calculateNPV`: `Σ CF[i] / (1+rate)^i`, indices from 0. -/
def calculateNPVAux (rate : ℚ) : List ℚ → ℕ → ℚ
  | [], _ => 0
  | cf :: rest, i => cf / (1 + rate) ^ i + calculateNPVAux rate rest (i + 1)

/-- `calculateNPV` over the whole vector. -/
def calculateNPV (cashFlows : List ℚ) (rate : ℚ) : ℚ :=
  calculateNPVAux rate cashFlows 0

/-- The cash-flow vector `CalculateIRR` builds: `CF[0] = −down payment`,
`CF[i] = projections[i−1].CashFlow` for `i = 1..H`, with the sale-year
`EquityAtSale` added onto `CF[H]`. -/
def irrCashFlows (downPayment : ℚ) (projections : List YearlyProjection)
    (holdingYears : ℕ) : List ℚ :=
  let saleProceeds :=
    (projections.getD (holdingYears - 1) default).EquityAtSale
  let base :=
    -downPayment ::
      (projections.take holdingYears).map (fun proj => proj.CashFlow)
  base.set holdingYears (base.getD holdingYears 0 + saleProceeds)

/-- The bisection loop of `CalculateIRR`: at most `fuel` (source: 100)
iterations; the convergence test uses the interval before the update; the
cached `npvLow` follows the `low` end; fuel exhaustion returns the final
midpoint. -/
def irrBisect (cashFlows : List ℚ) :
    ℕ → ℚ → ℚ → ℚ → ℚ
  | 0, low, high, _ => (low + high) / 2 * 100
  | fuel + 1, low, high, npvLow =>
    let mid := (low + high) / 2
    let npvMid := calculateNPV cashFlows mid
    if |npvMid| < 1 / 10000 ∨ |high - low| < 1 / 10000 then mid * 100
    else if decSign npvMid = decSign npvLow then
      irrBisect cashFlows fuel mid high npvMid
    else
      irrBisect cashFlows fuel low mid npvLow

/-- `CalculateIRR`: degenerate inputs return 0; same-sign endpoints take the
annualized-return fallback; otherwise bisection on `[-0.99, 2]`.
(With `holdingYears = 0` and a non-empty projection list the Go code would
panic on `projections[-1]`; the theorems below require `1 ≤ holdingYears`.) -/
def CalculateIRR (p : Property) (projections : List YearlyProjection)
    (holdingYears : ℕ) : ℚ :=
  if projections.length = 0 ∨ projections.length < holdingYears then 0
  else
    let downPayment := p.Financial.DownPayment
    if downPayment = 0 then 0
    else
      let cashFlows := irrCashFlows downPayment projections holdingYears
      let low : ℚ := -(99 / 100)
      let high : ℚ := 2
      let npvLow := calculateNPV cashFlows low
      let npvHigh := calculateNPV cashFlows high
      if decSign npvLow = decSign npvHigh then
        let totalCashFlow := cashFlows.sum
        if downPayment = 0 then 0
        else
          totalCashFlow / downPayment / (holdingYears : ℚ) * 100
      else irrBisect cashFlows 100 low high npvLow

/-! ## Mutation-aware model of the Scenario Engine

In Go, `Property.Financial` is a pointer (`*Financial`) and
`Financial.Loan()` mutates its receiver through `Normalize()`. To state that
`CompareScenarios` never mutates the base property's `Financial`, the
`Financial` objects live in an explicit store (pointers are indices), every
`*Financial` write of the source becomes a store update, and the functions
return the final store. The base `Property` value itself (identity fields
and the unit list) is only ever read by this call graph — the source assigns
only to freshly allocated `Unit`/`Financial`/`Property` structs — so it
needs no store. -/

/-- The heap of `Financial` objects: a pointer is an index. -/
structure FinStore where
  fins : List Financial
deriving DecidableEq, Inhabited

/-- Dereference a `*Financial`. -/
def FinStore.get (σ : FinStore) (i : ℕ) : Financial :=
  σ.fins.getD i default

/-- Write through a `*Financial`. -/
def FinStore.set (σ : FinStore) (i : ℕ) (f : Financial) : FinStore :=
  { fins := σ.fins.set i f }

/-- `&Financial{...}`: allocate a fresh object, returning its pointer. -/
def FinStore.alloc (σ : FinStore) (f : Financial) : FinStore × ℕ :=
  ({ fins := σ.fins ++ [f] }, σ.fins.length)

/-- `Property` with its `Financial` held by pointer, as in the source. -/
structure PropertyRef where
  PropertyName : String
  Address : String
  City : String
  State : String
  ZipCode : String
  County : String
  YearBuilt : ℤ
  NumberOfUnits : ℤ
  BuildingSF : ℚ
  LotSF : ℚ
  Units : List Unit
  Financial : ℕ
deriving DecidableEq, Inhabited

/-- `Financial.Loan()` on a pointer: `Normalize()` writes the normalized
object back through the pointer, then the loan is built from it. -/
def loanSt (σ : FinStore) (i : ℕ) : FinStore × Loan :=
  let fn := (σ.get i).Normalize
  (σ.set i fn,
   NewLoan (goInt64 fn.PurchasePrice) (goInt64 fn.DownPayment)
     fn.InterestRatePercent fn.LoanTermYears)

/-- `AnalyzeCashFlow` on a property whose `Financial` is a pointer: the
income/expense block reads the object, `Financial.Loan()` normalizes it in
place, and the investment fields are read back through the pointer. -/
def analyzeCashFlowSt (σ : FinStore) (p : PropertyRef) :
    FinStore × CashFlowAnalysis :=
  let f := σ.get p.Financial
  let monthlyIncome := (p.Units.map (fun u => u.Rent)).sum
  let monthlyGrossIncome := monthlyIncome
  let annualGrossIncome := monthlyIncome * 12
  let monthlyExpenses := f.Expenses.TotalMonthly
  let annualExpenses := f.Expenses.TotalYearly
  let monthlyNOI := monthlyGrossIncome - monthlyExpenses
  let annualNOI := annualGrossIncome - annualExpenses
  let step := loanSt σ p.Financial
  let σ1 := step.1
  let fin := σ1.get p.Financial
  let monthlyMortgage := |step.2.MonthlyPayment|
  let annualMortgage := monthlyMortgage * 12
  let monthlyCashFlow := monthlyNOI - monthlyMortgage
  let annualCashFlow := annualNOI - annualMortgage
  let purchasePrice := fin.PurchasePrice
  let downPayment := fin.DownPayment
  (σ1,
   { MonthlyGrossIncome := monthlyGrossIncome
     AnnualGrossIncome := annualGrossIncome
     MonthlyExpenses := monthlyExpenses
     AnnualExpenses := annualExpenses
     MonthlyNOI := monthlyNOI
     AnnualNOI := annualNOI
     MonthlyMortgage := monthlyMortgage
     AnnualMortgage := annualMortgage
     MonthlyCashFlow := monthlyCashFlow
     AnnualCashFlow := annualCashFlow
     CapRate :=
       if 0 < purchasePrice then annualNOI / purchasePrice * 100 else 0
     CashOnCash :=
       if 0 < downPayment then annualCashFlow / downPayment * 100 else 0
     GRM :=
       if 0 < annualGrossIncome then purchasePrice / annualGrossIncome
       else 0
     DSCR :=
       if 0 < annualMortgage then annualNOI / annualMortgage else 0
     BreakEvenRatio :=
       if 0 < annualGrossIncome then
         (annualExpenses + annualMortgage) / annualGrossIncome * 100
       else 0
     TotalInvestment := downPayment
     PurchasePrice := purchasePrice
     DownPayment := downPayment
     LoanAmount := fin.LoanAmount
     InterestRate := fin.InterestRatePercent
     LoanTermYears := fin.LoanTermYears.Years })

/-- `analyzeScenario` with explicit `Financial` pointers: the override block
is a fresh allocation (`&Financial{...}`), the modified property points at
it, and the analysis runs on the copy. -/
def analyzeScenarioSt (σ : FinStore) (p : PropertyRef)
    (scenario : Scenario) : FinStore × ScenarioResult :=
  let f := σ.get p.Financial
  let modifiedFinancial : Financial :=
    { AskingPrice := f.AskingPrice
      PurchasePrice := f.PurchasePrice
      DownPayment := scenario.DownPayment
      LoanAmount := f.PurchasePrice - scenario.DownPayment
      InterestRate := scenario.InterestRate
      LoanTermYears := scenario.LoanTerm
      Expenses := f.Expenses }
  let allocStep := σ.alloc modifiedFinancial
  let modifiedProperty : PropertyRef :=
    { p with
      Financial := allocStep.2
      Units := p.Units.map (fun u =>
        { u with Rent := u.Rent * scenario.RentMultiplier }) }
  let analyzed := analyzeCashFlowSt allocStep.1 modifiedProperty
  (analyzed.1,
   { Scenario := scenario
     MonthlyCashFlow := analyzed.2.MonthlyCashFlow
     AnnualCashFlow := analyzed.2.AnnualCashFlow
     CashOnCash := analyzed.2.CashOnCash
     CapRate := analyzed.2.CapRate
     IsPositive := analyzed.2.IsCashFlowPositive })

/-- `CompareScenarios` with explicit `Financial` pointers. -/
def CompareScenariosSt (σ : FinStore) (p : PropertyRef) :
    List Scenario → FinStore × List ScenarioResult
  | [] => (σ, [])
  | scenario :: rest =>
    let step := analyzeScenarioSt σ p scenario
    let more := CompareScenariosSt step.1 p rest
    (more.1, step.2 :: more.2)

/-! ## Concrete inputs used by the witnesses and counterexamples -/

/-- All-zero monthly expenses. -/
def zeroExpenses : ExpensesMonthly :=
  { Taxes := 0, Insurance := 0, PMI := 0, Utilities := 0,
    RepairsMaintenance := 0, ManagementFee := 0, OtherExpenses := 0,
    CapitalReserves := 0, VacancyRate := 0 }

/-- An all-zero financial block (30-year term). -/
def zeroFinancial : Financial :=
  { AskingPrice := 0, PurchasePrice := 0, DownPayment := 0, LoanAmount := 0,
    InterestRate := 0, LoanTermYears := .Term30Years,
    Expenses := zeroExpenses }

/-- A rental unit with the given rent and no other data. -/
def simpleUnit (rent : ℚ) : Unit :=
  { Uuid := "", Name := "unit1", Bedrooms := 0, Bathrooms := 0, Size := 0,
    Rent := rent, Occupied := true }

/-- A property with the given units and financial block and blank identity
fields. -/
def simpleProperty (units : List Unit) (fin : Financial) : Property :=
  { PropertyName := "p", Address := "", City := "", State := "",
    ZipCode := "", County := "", YearBuilt := 0, NumberOfUnits := 0,
    BuildingSF := 0, LotSF := 0, Units := units, Financial := fin }

/-- A zero-interest loan of 240,000 over 30 years. -/
def zeroRateLoan : Loan := NewLoan 240000 0 0 .Term30Years

/-- Purchase price 100,000 with a zero down payment: normalization replaces
the down payment by 20,000 before the cash-on-cash guard reads it. The
basis-point rate 120,000 (annual rate 12, monthly rate 1) keeps the
payment arithmetic small. -/
def c4Property : Property :=
  simpleProperty []
    { AskingPrice := 0, PurchasePrice := 100000, DownPayment := 0,
      LoanAmount := 0, InterestRate := 120000,
      LoanTermYears := .Term10Years, Expenses := zeroExpenses }

/-- Income 1/2 over zero expenses, purchase price 0.6: the search interval
`[0, 0.6]` is below the $100 tolerance, so no midpoint is ever tested and
the returned down payment is `round(0.6) = 1`, whose scenario runs on the
truncated principal `int64(0.6) − int64(1) = −1`. -/
def c3Property : Property :=
  simpleProperty [simpleUnit (1 / 2)]
    { AskingPrice := 0, PurchasePrice := 3 / 5, DownPayment := 0,
      LoanAmount := 0, InterestRate := 120000,
      LoanTermYears := .Term10Years, Expenses := zeroExpenses }

/-- Income 5 over zero expenses but purchase price −1: the loop is skipped
and `round(−1) = −1` is returned although break-even is feasible. -/
def c6Property : Property :=
  simpleProperty [simpleUnit 5]
    { AskingPrice := 0, PurchasePrice := -1, DownPayment := 0,
      LoanAmount := 0, InterestRate := 500, LoanTermYears := .Term30Years,
      Expenses := zeroExpenses }

/-- Down payment 100 and no loan, for the IRR witness. -/
def irrProperty : Property :=
  simpleProperty []
    { AskingPrice := 0, PurchasePrice := 0, DownPayment := 100,
      LoanAmount := 0, InterestRate := 0, LoanTermYears := .Term30Years,
      Expenses := zeroExpenses }

/-- One projected year: no cash flow, sale equity 200. -/
def irrProjection : YearlyProjection :=
  { (default : YearlyProjection) with CashFlow := 0, EquityAtSale := 200 }

/-- One unit at rent 1000 over 30-year 5% financing, for the projection and
frame witnesses. -/
def basicFinancial : Financial :=
  { AskingPrice := 0, PurchasePrice := 100000, DownPayment := 20000,
    LoanAmount := 80000, InterestRate := 500, LoanTermYears := .Term30Years,
    Expenses := zeroExpenses }

/-- The projection witness property. -/
def basicProperty : Property :=
  simpleProperty [simpleUnit 1000] basicFinancial

/-- The default projection configuration over two years. -/
def twoYearConfig : ProjectionConfig :=
  { Years := 2, RentGrowthRate := 3 / 100, ExpenseGrowthRate := 2 / 100,
    AppreciationRate := 0, VacancyRate := 5 / 100 }

/-- A one-object store holding `basicFinancial`, for the frame witness. -/
def basicStore : FinStore := { fins := [basicFinancial] }

/-- `basicProperty` with its `Financial` as pointer 0 into `basicStore`. -/
def basicPropertyRef : PropertyRef :=
  { PropertyName := "p", Address := "", City := "", State := "",
    ZipCode := "", County := "", YearBuilt := 0, NumberOfUnits := 0,
    BuildingSF := 0, LotSF := 0, Units := [simpleUnit 1000], Financial := 0 }

/-- A 10%-down scenario for the frame witness. -/
def tenPercentScenario : Scenario :=
  { Name := "10% Down", DownPayment := 10000, InterestRate := 500,
    LoanTerm := .Term30Years, RentMultiplier := 1 }

/-! # Theorems -/

/-! ## Helper lemmas -/

theorem Normalize_PurchasePrice (f : Financial) :
    f.Normalize.PurchasePrice = f.PurchasePrice := by
  simp only [Financial.Normalize]
  split_ifs <;> rfl

theorem Normalize_of_not_pos (f : Financial) (h : f.PurchasePrice ≤ 0) :
    f.Normalize = f := by
  have h1 : ¬(f.DownPayment = 0 ∧ 0 < f.PurchasePrice) := by
    rintro ⟨-, hpos⟩
    exact absurd hpos (not_lt.mpr h)
  simp only [Financial.Normalize, if_neg h1]
  rw [if_neg (by rintro ⟨-, hpos⟩; exact absurd hpos (not_lt.mpr h))]

theorem amortRowsAux_interest_zero (M : ℚ) (n : ℕ) (bal : ℚ) :
    ((amortRowsAux M 0 n bal).map (fun row => row.Interest)).sum = 0 := by
  induction n generalizing bal with
  | zero => simp [amortRowsAux]
  | succ k ih => simp [amortRowsAux, ih]

/-! ## C1 — the monthly payment formula -/

/-- C1: for every loan, with principal `P = HomePrice − DownPayment`,
monthly rate `r` = annual rate / 12 and `n = TermYears × 12` periods,
`Loan.MonthlyPayment` returns 0 when `r = 0` or `n = 0`, and otherwise
returns exactly `r·P·(1+r)^n / ((1+r)^n − 1)`. -/
theorem MonthlyPayment_zero_or_formula (l : Loan) :
    (l.InterestRate.Decimal / 12 = 0 ∨ l.TermYears * 12 = 0 →
      l.MonthlyPayment = 0) ∧
    (¬(l.InterestRate.Decimal / 12 = 0 ∨ l.TermYears * 12 = 0) →
      l.MonthlyPayment =
        l.InterestRate.Decimal / 12 * (l.HomePrice - l.DownPayment) *
            (1 + l.InterestRate.Decimal / 12) ^ (l.TermYears * 12) /
          ((1 + l.InterestRate.Decimal / 12) ^ (l.TermYears * 12) - 1)) := by
  constructor
  · intro h
    simp only [Loan.MonthlyPayment]
    rw [if_pos h]
  · intro h
    simp only [Loan.MonthlyPayment]
    rw [if_neg h]

/-- C1, concrete checks: the zero-rate branch and the formula branch on a
loan of principal 1 at monthly rate 1 over 12 periods
(`1·1·2^12/(2^12−1) = 4096/4095`). -/
theorem MonthlyPayment_zero_or_formula_witness :
    zeroRateLoan.MonthlyPayment = 0 ∧
    { HomePrice := 2, DownPayment := 1, InterestRate := ⟨12⟩,
      TermYears := 1 : Loan }.MonthlyPayment = 4096 / 4095 := by
  constructor
  · exact (MonthlyPayment_zero_or_formula zeroRateLoan).1
      (Or.inl (by norm_num [zeroRateLoan, NewLoan, NewInterestRate,
        InterestRate.Decimal]))
  · rw [(MonthlyPayment_zero_or_formula _).2
      (by norm_num [InterestRate.Decimal])]
    norm_num [InterestRate.Decimal]

/-! ## C8 — the interest-rate leaf -/

/-- C8: for every percentage `p`, `NewInterestRate p` satisfies
`Points() == Decimal() × 10000`; `NewInterestRate 5` has `Points() = 500`
and `String() = "5%"`, and `NewInterestRate 0` has `Points() = 0`. -/
theorem InterestRate_points_invariant :
    (∀ percent : ℚ,
      (NewInterestRate percent).Points =
        (NewInterestRate percent).Decimal * 10000) ∧
    (NewInterestRate 5).Points = 500 ∧
    (NewInterestRate 5).String = "5%" ∧
    (NewInterestRate 0).Points = 0 := by
  refine ⟨fun percent => ?_, ?_, ?_, ?_⟩
  · simp only [NewInterestRate, InterestRate.Points, InterestRate.Decimal]
    ring
  · norm_num [NewInterestRate, InterestRate.Points]
  · have hval : (NewInterestRate 5).rate * 100 = 5 := by
      norm_num [NewInterestRate]
    simp only [InterestRate.String, hval]
    rfl
  · norm_num [NewInterestRate, InterestRate.Points]

/-! ## C10 — break-even rent on an empty unit list -/

/-- C10: for every property with no units, `FindBreakEvenRent` returns 0
without dividing by the unit count; with at least one unit it returns the
total monthly cost divided by the unit count. -/
theorem FindBreakEvenRent_empty_units (p : Property) :
    (p.Units = [] → FindBreakEvenRent p = 0) ∧
    (p.Units ≠ [] →
      FindBreakEvenRent p =
        (p.Financial.Expenses.TotalMonthly +
          |p.Financial.Loan.MonthlyPayment|) / (p.Units.length : ℚ)) := by
  constructor
  · intro h
    simp [FindBreakEvenRent, h]
  · intro h
    rw [FindBreakEvenRent, if_neg]
    simpa using h

/-- C10, concrete check at a unitless property. -/
theorem FindBreakEvenRent_empty_units_witness :
    FindBreakEvenRent c4Property = 0 :=
  (FindBreakEvenRent_empty_units c4Property).1 (by rfl)

/-! ## Bisection-loop invariants (for C3 and C6) -/

theorem bisectDownPayment_bounds (p : Property) (low high : ℚ)
    (h0 : 0 ≤ low) (hlh : low ≤ high) :
    0 ≤ (bisectDownPayment p low high).1 ∧
    (bisectDownPayment p low high).1 ≤ (bisectDownPayment p low high).2 ∧
    0 ≤ (bisectDownPayment p low high).2 := by
  induction low, high using bisectDownPayment.induct p with
  | case1 low high h hpos ih =>
    rw [bisectDownPayment, dif_pos h, if_pos hpos]
    exact ih h0 (by linarith)
  | case2 low high h hpos ih =>
    rw [bisectDownPayment, dif_pos h, if_neg hpos]
    exact ih (by linarith) (by linarith)
  | case3 low high h =>
    rw [bisectDownPayment, dif_neg h]
    exact ⟨h0, hlh, le_trans h0 hlh⟩

theorem bisectDownPayment_inv (p : Property) (low high : ℚ) :
    ((bisectDownPayment p low high).2 = high ∨
      (analyzeScenario p
        (searchScenario p (bisectDownPayment p low high).2)).IsPositive =
        true) ∧
    ((bisectDownPayment p low high).1 = low ∨
      (analyzeScenario p
        (searchScenario p (bisectDownPayment p low high).1)).IsPositive =
        false) ∧
    (bisectDownPayment p low high).2 - (bisectDownPayment p low high).1 ≤
      100 := by
  induction low, high using bisectDownPayment.induct p with
  | case1 low high h hpos ih =>
    rw [bisectDownPayment, dif_pos h, if_pos hpos]
    refine ⟨?_, ih.2.1, ih.2.2⟩
    rcases ih.1 with hmid | hp
    · exact Or.inr (by rw [hmid]; exact hpos)
    · exact Or.inr hp
  | case2 low high h hpos ih =>
    rw [bisectDownPayment, dif_pos h, if_neg hpos]
    refine ⟨ih.1, ?_, ih.2.2⟩
    rcases ih.2.1 with hmid | hp
    · exact Or.inr (by rw [hmid]; exact Bool.not_eq_true _ ▸ hpos)
    · exact Or.inr hp
  | case3 low high h =>
    rw [bisectDownPayment, dif_neg h]
    exact ⟨Or.inl rfl, Or.inl rfl, by linarith [not_lt.mp h]⟩

/-! ## Projection-loop lemmas (for C7) -/

theorem projectYearRow_GrossIncome (env : ProjectionEnv) (year : ℕ)
    (cum rent exp val : ℚ) :
    ((projectYearRow env year cum rent exp val).1).GrossIncome = rent := rfl

theorem projectYearRow_Expenses (env : ProjectionEnv) (year : ℕ)
    (cum rent exp val : ℚ) :
    ((projectYearRow env year cum rent exp val).1).Expenses = exp := rfl

theorem projectYearRow_PropertyValue (env : ProjectionEnv) (year : ℕ)
    (cum rent exp val : ℚ) :
    ((projectYearRow env year cum rent exp val).1).PropertyValue = val := rfl

theorem projectLoop_length (env : ProjectionEnv) :
    ∀ (m year : ℕ) (cum rent exp val : ℚ),
      (projectLoop env year m cum rent exp val).length = m := by
  intro m
  induction m with
  | zero => intro year cum rent exp val; rfl
  | succ m ih =>
    intro year cum rent exp val
    simp only [projectLoop, List.length_cons, ih]

/-- Closed form of the loop for start years ≥ 2 (growth applied at the top
of every iteration): element `j` carries the state multiplied by the `j+1`st
power of each growth factor. -/
theorem projectLoop_closed (env : ProjectionEnv) :
    ∀ (m j : ℕ), j < m → ∀ (year : ℕ), 2 ≤ year →
      ∀ (cum rent exp val : ℚ),
      (((projectLoop env year m cum rent exp val).getD j
          default).GrossIncome =
        rent * (1 + env.config.RentGrowthRate) ^ (j + 1)) ∧
      (((projectLoop env year m cum rent exp val).getD j
          default).Expenses =
        exp * (1 + env.config.ExpenseGrowthRate) ^ (j + 1)) ∧
      (((projectLoop env year m cum rent exp val).getD j
          default).PropertyValue =
        val * (1 + env.config.AppreciationRate) ^ (j + 1)) := by
  intro m
  induction m with
  | zero => intro j hj; exact absurd hj (Nat.not_lt_zero j)
  | succ m ih =>
    intro j hj year hy cum rent exp val
    have h1y : (1 : ℕ) < year := hy
    simp only [projectLoop, if_pos h1y]
    cases j with
    | zero =>
      simp only [List.getD_cons_zero, projectYearRow_GrossIncome,
        projectYearRow_Expenses, projectYearRow_PropertyValue]
      exact ⟨by ring, by ring, by ring⟩
    | succ j =>
      have hj' : j < m := Nat.succ_lt_succ_iff.mp hj
      have hy' : 2 ≤ year + 1 := le_trans hy (Nat.le_succ year)
      have hih := ih j hj' (year + 1) hy'
        (projectYearRow env year cum
          (rent * (1 + env.config.RentGrowthRate))
          (exp * (1 + env.config.ExpenseGrowthRate))
          (val * (1 + env.config.AppreciationRate))).2
        (rent * (1 + env.config.RentGrowthRate))
        (exp * (1 + env.config.ExpenseGrowthRate))
        (val * (1 + env.config.AppreciationRate))
      simp only [List.getD_cons_succ]
      refine ⟨?_, ?_, ?_⟩
      · rw [hih.1]; ring
      · rw [hih.2.1]; ring
      · rw [hih.2.2]; ring

/-- The loop's first calendar year applies no growth and hands the base
state to the year-2 tail. -/
theorem projectLoop_head (env : ProjectionEnv) (m : ℕ)
    (cum rent exp val : ℚ) :
    projectLoop env 1 (m + 1) cum rent exp val =
      (projectYearRow env 1 cum rent exp val).1 ::
        projectLoop env 2 m (projectYearRow env 1 cum rent exp val).2
          rent exp val := by
  simp only [projectLoop]
  norm_num

/-- The year-1/ratio behavior of a loop of `m + 2` years started at calendar
year 1, for any fixed environment and base state. -/
theorem projectLoop_start_spec (env : ProjectionEnv) (m : ℕ)
    (cum rent exp val : ℚ) :
    (((projectLoop env 1 (m + 2) cum rent exp val).getD 0
        default).GrossIncome = rent) ∧
    (((projectLoop env 1 (m + 2) cum rent exp val).getD 0
        default).Expenses = exp) ∧
    (((projectLoop env 1 (m + 2) cum rent exp val).getD 0
        default).PropertyValue = val) ∧
    ∀ y, 2 ≤ y → y ≤ m + 2 →
      (((projectLoop env 1 (m + 2) cum rent exp val).getD (y - 1)
          default).GrossIncome =
        ((projectLoop env 1 (m + 2) cum rent exp val).getD (y - 2)
          default).GrossIncome * (1 + env.config.RentGrowthRate)) ∧
      (((projectLoop env 1 (m + 2) cum rent exp val).getD (y - 1)
          default).Expenses =
        ((projectLoop env 1 (m + 2) cum rent exp val).getD (y - 2)
          default).Expenses * (1 + env.config.ExpenseGrowthRate)) ∧
      (((projectLoop env 1 (m + 2) cum rent exp val).getD (y - 1)
          default).PropertyValue =
        ((projectLoop env 1 (m + 2) cum rent exp val).getD (y - 2)
          default).PropertyValue * (1 + env.config.AppreciationRate)) := by
  rw [show m + 2 = (m + 1) + 1 from rfl, projectLoop_head]
  refine ⟨by rw [List.getD_cons_zero, projectYearRow_GrossIncome],
    by rw [List.getD_cons_zero, projectYearRow_Expenses],
    by rw [List.getD_cons_zero, projectYearRow_PropertyValue], ?_⟩
  intro y hy2 hyN
  obtain ⟨j, rfl⟩ : ∃ j, y = j + 2 := ⟨y - 2, by omega⟩
  have e1 : j + 2 - 1 = j + 1 := by omega
  have e2 : j + 2 - 2 = j := by omega
  rw [e1, e2, List.getD_cons_succ]
  have hclj := projectLoop_closed env (m + 1) j (by omega) 2 le_rfl
    (projectYearRow env 1 cum rent exp val).2 rent exp val
  cases j with
  | zero =>
    rw [List.getD_cons_zero]
    refine ⟨?_, ?_, ?_⟩
    · rw [hclj.1, projectYearRow_GrossIncome]; ring
    · rw [hclj.2.1, projectYearRow_Expenses]; ring
    · rw [hclj.2.2, projectYearRow_PropertyValue]; ring
  | succ i =>
    rw [List.getD_cons_succ]
    have hcli := projectLoop_closed env (m + 1) i (by omega) 2 le_rfl
      (projectYearRow env 1 cum rent exp val).2 rent exp val
    refine ⟨?_, ?_, ?_⟩
    · rw [hclj.1, hcli.1]; ring
    · rw [hclj.2.1, hcli.2.1]; ring
    · rw [hclj.2.2, hcli.2.2]; ring

/-! ## C5 — zero-rate loans -/

/-- C5 counterexample: at rate 0, `MonthlyPayment` takes the degenerate
branch and returns 0, not `principal / n` (= 240000/360 = 2000/3 here), so
the claim's payment clause fails on the code. -/
theorem zero_rate_payment_cex :
    zeroRateLoan.InterestRate.Decimal = 0 ∧
    0 < zeroRateLoan.TermYears ∧
    zeroRateLoan.MonthlyPayment = 0 ∧
    zeroRateLoan.MonthlyPayment ≠
      (zeroRateLoan.HomePrice - zeroRateLoan.DownPayment) /
        ((zeroRateLoan.TermYears * 12 : ℕ) : ℚ) := by
  refine ⟨by norm_num [zeroRateLoan, NewLoan, NewInterestRate,
    InterestRate.Decimal], by norm_num [zeroRateLoan, NewLoan,
    LoanTerm.Years], ?_, ?_⟩ <;>
    norm_num [zeroRateLoan, NewLoan, NewInterestRate, InterestRate.Decimal,
      Loan.MonthlyPayment, LoanTerm.Years]

/-- C5 (amended): for every loan with a zero interest rate and a positive
term, the monthly payment is 0 (the degenerate branch, not `principal / n`)
and the total interest summed over the amortization schedule is zero. -/
theorem zero_rate_payment_and_interest (l : Loan)
    (hr : l.InterestRate.Decimal = 0) (_hn : 0 < l.TermYears) :
    l.MonthlyPayment = 0 ∧ l.GetTotalInterest = 0 := by
  have hr12 : l.InterestRate.Decimal / 12 = 0 := by rw [hr]; norm_num
  constructor
  · simp only [Loan.MonthlyPayment]
    rw [if_pos (Or.inl hr12)]
  · simp only [Loan.GetTotalInterest, Loan.AmortizationSchedule, hr12]
    exact amortRowsAux_interest_zero _ _ _

/-- C5, concrete check at the zero-rate 30-year loan. -/
theorem zero_rate_payment_and_interest_witness :
    zeroRateLoan.MonthlyPayment = 0 ∧ zeroRateLoan.GetTotalInterest = 0 :=
  zero_rate_payment_and_interest zeroRateLoan
    (by norm_num [zeroRateLoan, NewLoan, NewInterestRate,
      InterestRate.Decimal])
    (by norm_num [zeroRateLoan, NewLoan, LoanTerm.Years])

/-! ## Store lemmas (for C9) -/

theorem FinStore_get_append_set (σ : FinStore) (modF fn : Financial)
    (i : ℕ) (hi : i < σ.fins.length) :
    FinStore.get ⟨(σ.fins ++ [modF]).set σ.fins.length fn⟩ i = σ.get i := by
  show ((σ.fins ++ [modF]).set σ.fins.length fn).getD i default =
    σ.fins.getD i default
  rw [List.getD_eq_getD_get?, List.getD_eq_getD_get?]
  rw [List.get?_eq_getElem?, List.get?_eq_getElem?]
  rw [List.getElem?_set_ne (by omega), List.getElem?_append_left hi]

/-- One scenario step only allocates a fresh `Financial` and normalizes that
fresh object: the final store is the input store extended at the end, with
the write landing at the new index. -/
theorem analyzeScenarioSt_store (σ : FinStore) (p : PropertyRef)
    (s : Scenario) :
    ∃ modF fn, (analyzeScenarioSt σ p s).1 =
      FinStore.mk ((σ.fins ++ [modF]).set σ.fins.length fn) :=
  ⟨_, _, rfl⟩

theorem CompareScenariosSt_store_preserves (σ : FinStore) (p : PropertyRef)
    (scenarios : List Scenario) :
    ∀ i, i < σ.fins.length →
      ((CompareScenariosSt σ p scenarios).1).get i = σ.get i := by
  induction scenarios generalizing σ with
  | nil => intro i hi; rfl
  | cons s rest ih =>
    intro i hi
    obtain ⟨modF, fn, hst⟩ := analyzeScenarioSt_store σ p s
    have hlen : σ.fins.length ≤ ((analyzeScenarioSt σ p s).1).fins.length := by
      rw [hst]
      simp
    have hget : ((analyzeScenarioSt σ p s).1).get i = σ.get i := by
      rw [hst]
      exact FinStore_get_append_set σ modF fn i hi
    calc ((CompareScenariosSt σ p (s :: rest)).1).get i
        = ((CompareScenariosSt (analyzeScenarioSt σ p s).1 p rest).1).get i :=
          rfl
      _ = ((analyzeScenarioSt σ p s).1).get i :=
          ih (analyzeScenarioSt σ p s).1 i (lt_of_lt_of_le hi hlen)
      _ = σ.get i := hget

/-! ## Sign lemmas and the bisection invariant (for C2) -/

theorem decSign_pos {a : ℚ} (h : 0 < a) : decSign a = 1 := by
  simp [decSign, not_lt.mpr h.le, ne_of_gt h]

theorem decSign_neg {a : ℚ} (h : a < 0) : decSign a = -1 := by
  simp [decSign, h]

theorem decSign_ne_of_mul_neg {a b : ℚ} (h : a * b < 0) :
    decSign a ≠ decSign b := by
  rcases mul_neg_iff.mp h with ⟨ha, hb⟩ | ⟨ha, hb⟩
  · rw [decSign_pos ha, decSign_neg hb]
    norm_num
  · rw [decSign_neg ha, decSign_pos hb]
    norm_num

theorem mul_neg_of_decSign_ne {a b : ℚ} (ha : a ≠ 0) (hb : b ≠ 0)
    (h : decSign a ≠ decSign b) : a * b < 0 := by
  rcases ha.lt_or_lt with ha' | ha'
  · rcases hb.lt_or_lt with hb' | hb'
    · exact absurd (by rw [decSign_neg ha', decSign_neg hb']) h
    · exact mul_neg_of_neg_of_pos ha' hb'
  · rcases hb.lt_or_lt with hb' | hb'
    · exact mul_neg_of_pos_of_neg ha' hb'
    · exact absurd (by rw [decSign_pos ha', decSign_pos hb']) h

theorem mul_neg_transfer {a b c : ℚ} (hab : a * b < 0) (hc : c ≠ 0)
    (h : decSign c = decSign a) : c * b < 0 := by
  rcases mul_neg_iff.mp hab with ⟨ha, hb⟩ | ⟨ha, hb⟩
  · have hcpos : 0 < c := by
      rcases hc.lt_or_lt with h' | h'
      · rw [decSign_neg h', decSign_pos ha] at h
        norm_num at h
      · exact h'
    exact mul_neg_of_pos_of_neg hcpos hb
  · have hcneg : c < 0 := by
      rcases hc.lt_or_lt with h' | h'
      · exact h'
      · rw [decSign_pos h', decSign_neg ha] at h
        norm_num at h
    exact mul_neg_of_neg_of_pos hcneg hb

/-- The IRR bisection keeps a sign-changing bracket around the returned
midpoint; the bracket's width after `fuel` iterations is at most the initial
width over `2^fuel` unless one of the convergence tests already fired. -/
theorem irrBisect_spec (cfs : List ℚ) :
    ∀ (fuel : ℕ) (low high : ℚ), low ≤ high →
      calculateNPV cfs low * calculateNPV cfs high < 0 →
      ∃ mid lo hi,
        irrBisect cfs fuel low high (calculateNPV cfs low) = mid * 100 ∧
        lo ≤ mid ∧ mid ≤ hi ∧
        calculateNPV cfs lo * calculateNPV cfs hi < 0 ∧
        (|calculateNPV cfs mid| < 1 / 10000 ∨ hi - lo < 1 / 10000 ∨
          hi - lo ≤ (high - low) / 2 ^ fuel) := by
  intro fuel
  induction fuel with
  | zero =>
    intro low high hlh hprod
    refine ⟨(low + high) / 2, low, high, rfl, by linarith, by linarith,
      hprod, Or.inr (Or.inr ?_)⟩
    rw [pow_zero, div_one]
  | succ fuel ih =>
    intro low high hlh hprod
    simp only [irrBisect]
    by_cases hc : |calculateNPV cfs ((low + high) / 2)| < 1 / 10000 ∨
        |high - low| < 1 / 10000
    · rw [if_pos hc]
      rcases hc with hc | hc
      · exact ⟨(low + high) / 2, low, high, rfl, by linarith, by linarith,
          hprod, Or.inl hc⟩
      · refine ⟨(low + high) / 2, low, high, rfl, by linarith, by linarith,
          hprod, Or.inr (Or.inl ?_)⟩
        rwa [abs_of_nonneg (by linarith)] at hc
    · rw [if_neg hc]
      push_neg at hc
      have hmidne : calculateNPV cfs ((low + high) / 2) ≠ 0 := by
        intro h0
        rw [h0] at hc
        norm_num at hc
      have hlowne : calculateNPV cfs low ≠ 0 := by
        intro h0
        rw [h0, zero_mul] at hprod
        exact absurd hprod (lt_irrefl 0)
      by_cases hsgn : decSign (calculateNPV cfs ((low + high) / 2)) =
          decSign (calculateNPV cfs low)
      · rw [if_pos hsgn]
        have hprod' : calculateNPV cfs ((low + high) / 2) *
            calculateNPV cfs high < 0 :=
          mul_neg_transfer hprod hmidne hsgn
        obtain ⟨mid, lo, hi, heq, hlo, hhi, hbr, hdisj⟩ :=
          ih ((low + high) / 2) high (by linarith) hprod'
        refine ⟨mid, lo, hi, heq, hlo, hhi, hbr, ?_⟩
        rcases hdisj with hd | hd | hd
        · exact Or.inl hd
        · exact Or.inr (Or.inl hd)
        · refine Or.inr (Or.inr (le_trans hd (le_of_eq ?_)))
          rw [pow_succ]
          field_simp
          ring
      · rw [if_neg hsgn]
        have hprod' : calculateNPV cfs low *
            calculateNPV cfs ((low + high) / 2) < 0 := by
          have := mul_neg_of_decSign_ne hmidne hlowne hsgn
          linarith [mul_comm (calculateNPV cfs ((low + high) / 2))
            (calculateNPV cfs low)]
        obtain ⟨mid, lo, hi, heq, hlo, hhi, hbr, hdisj⟩ :=
          ih low ((low + high) / 2) (by linarith) hprod'
        refine ⟨mid, lo, hi, heq, hlo, hhi, hbr, ?_⟩
        rcases hdisj with hd | hd | hd
        · exact Or.inl hd
        · exact Or.inr (Or.inl hd)
        · refine Or.inr (Or.inr (le_trans hd (le_of_eq ?_)))
          rw [pow_succ]
          field_simp
          ring

/-! ## C2 — IRR bisection accuracy -/

/-- C2: for every property with a non-zero down payment and every holding
period `H` with `1 ≤ H ≤` the number of projected years, if the NPV of the
constructed cash-flow vector at the rates −0.99 and 2.00 have opposite
signs (negative product), then `CalculateIRR` returns `mid × 100` for a
rate `mid` with `|NPV(mid)| < 0.0001` or a sign-changing bracket of width
`< 0.0001` around `mid`. -/
theorem CalculateIRR_bisection_accuracy (p : Property)
    (projections : List YearlyProjection) (holdingYears : ℕ)
    (h1 : 1 ≤ holdingYears) (h2 : holdingYears ≤ projections.length)
    (hdp : p.Financial.DownPayment ≠ 0)
    (hsign :
      calculateNPV (irrCashFlows p.Financial.DownPayment projections
          holdingYears) (-(99 / 100)) *
        calculateNPV (irrCashFlows p.Financial.DownPayment projections
          holdingYears) 2 < 0) :
    ∃ mid, CalculateIRR p projections holdingYears = mid * 100 ∧
      (|calculateNPV (irrCashFlows p.Financial.DownPayment projections
          holdingYears) mid| < 1 / 10000 ∨
        ∃ lo hi, lo ≤ mid ∧ mid ≤ hi ∧ hi - lo < 1 / 10000 ∧
          calculateNPV (irrCashFlows p.Financial.DownPayment projections
              holdingYears) lo *
            calculateNPV (irrCashFlows p.Financial.DownPayment projections
              holdingYears) hi < 0) := by
  have hlen : ¬(projections.length = 0 ∨
      projections.length < holdingYears) := by omega
  simp only [CalculateIRR, if_neg hlen, if_neg hdp,
    if_neg (decSign_ne_of_mul_neg hsign)]
  obtain ⟨mid, lo, hi, heq, hlo, hhi, hbr, hdisj⟩ :=
    irrBisect_spec (irrCashFlows p.Financial.DownPayment projections
      holdingYears) 100 (-(99 / 100)) 2 (by norm_num) hsign
  refine ⟨mid, heq, ?_⟩
  rcases hdisj with hd | hd | hd
  · exact Or.inl hd
  · exact Or.inr ⟨lo, hi, hlo, hhi, hd, hbr⟩
  · refine Or.inr ⟨lo, hi, hlo, hhi, lt_of_le_of_lt hd ?_, hbr⟩
    norm_num

/-- C2, concrete check: one projected year with sale equity 200 against a
down payment of 100 brackets a root of the NPV in `[-0.99, 2]`. -/
theorem CalculateIRR_bisection_accuracy_witness :
    ∃ mid, CalculateIRR irrProperty [irrProjection] 1 = mid * 100 ∧
      (|calculateNPV (irrCashFlows irrProperty.Financial.DownPayment
          [irrProjection] 1) mid| < 1 / 10000 ∨
        ∃ lo hi, lo ≤ mid ∧ mid ≤ hi ∧ hi - lo < 1 / 10000 ∧
          calculateNPV (irrCashFlows irrProperty.Financial.DownPayment
              [irrProjection] 1) lo *
            calculateNPV (irrCashFlows irrProperty.Financial.DownPayment
              [irrProjection] 1) hi < 0) :=
  CalculateIRR_bisection_accuracy irrProperty [irrProjection] 1 le_rfl
    (by norm_num)
    (by norm_num [irrProperty, simpleProperty])
    (by norm_num [irrProperty, simpleProperty, irrProjection, irrCashFlows,
      calculateNPV, calculateNPVAux, List.getD_cons_zero])

/-! ## C9 — the base property is never mutated -/

/-- C9: `CompareScenariosSt` (the scenario engine with `Financial` objects
held by pointer, the one mutable state its call graph can reach) leaves the
base property's `Financial` object — down payment, loan amount, rate, term
and expenses — exactly as it was, and likewise every other pre-existing
object of the store; the base `PropertyRef` value (identity fields, unit
list) is passed around read-only by construction, matching the source which
assigns only to freshly allocated structs. -/
theorem CompareScenarios_base_financial_preserved (σ : FinStore)
    (p : PropertyRef) (scenarios : List Scenario)
    (hp : p.Financial < σ.fins.length) :
    ((CompareScenariosSt σ p scenarios).1).get p.Financial =
      σ.get p.Financial ∧
    ∀ i, i < σ.fins.length →
      ((CompareScenariosSt σ p scenarios).1).get i = σ.get i :=
  ⟨CompareScenariosSt_store_preserves σ p scenarios p.Financial hp,
   CompareScenariosSt_store_preserves σ p scenarios⟩

/-- C9, concrete check: a 10%-down scenario sweep leaves the stored base
`Financial` untouched. -/
theorem CompareScenarios_base_financial_preserved_witness :
    ((CompareScenariosSt basicStore basicPropertyRef
        [tenPercentScenario]).1).get basicPropertyRef.Financial =
      basicStore.get basicPropertyRef.Financial :=
  (CompareScenarios_base_financial_preserved basicStore basicPropertyRef
    [tenPercentScenario]
    (by simp [basicStore, basicPropertyRef])).1

/-! ## C7 — multi-year projection growth -/

/-- C7: for every property and every configuration with at least 2 years,
`ProjectCashFlow` emits `Years` rows; year 1 carries the base annual rent,
base annual expenses and the unchanged purchase price, and each later
year's gross income, expenses and property value are the previous year's
multiplied by `1 + rent growth`, `1 + expense growth` and
`1 + appreciation` respectively. -/
theorem ProjectCashFlow_growth_spec (p : Property)
    (config : ProjectionConfig) (hN : 2 ≤ config.Years) :
    (ProjectCashFlow p config).length = config.Years ∧
    ((ProjectCashFlow p config).getD 0 default).GrossIncome =
      (p.Units.map (fun u => u.Rent)).sum * 12 ∧
    ((ProjectCashFlow p config).getD 0 default).Expenses =
      p.Financial.Expenses.TotalYearly ∧
    ((ProjectCashFlow p config).getD 0 default).PropertyValue =
      p.Financial.PurchasePrice ∧
    ∀ y, 2 ≤ y → y ≤ config.Years →
      (((ProjectCashFlow p config).getD (y - 1) default).GrossIncome =
        ((ProjectCashFlow p config).getD (y - 2) default).GrossIncome *
          (1 + config.RentGrowthRate)) ∧
      (((ProjectCashFlow p config).getD (y - 1) default).Expenses =
        ((ProjectCashFlow p config).getD (y - 2) default).Expenses *
          (1 + config.ExpenseGrowthRate)) ∧
      (((ProjectCashFlow p config).getD (y - 1) default).PropertyValue =
        ((ProjectCashFlow p config).getD (y - 2) default).PropertyValue *
          (1 + config.AppreciationRate)) := by
  obtain ⟨m, hm⟩ : ∃ m, config.Years = m + 2 := ⟨config.Years - 2, by omega⟩
  have hunf : ProjectCashFlow p config =
      projectLoop
        { config := config
          downPayment := p.Financial.DownPayment
          annualMortgage := |p.Financial.Loan.MonthlyPayment| * 12
          schedule := p.Financial.Loan.AmortizationSchedule
          initialLoanAmount := p.Financial.Normalize.LoanAmount
          termYears := p.Financial.LoanTermYears.Years }
        1 (m + 2) 0 ((p.Units.map (fun u => u.Rent)).sum * 12)
        p.Financial.Expenses.TotalYearly p.Financial.PurchasePrice := by
    rw [← hm]
    rfl
  have hspec := projectLoop_start_spec
    { config := config
      downPayment := p.Financial.DownPayment
      annualMortgage := |p.Financial.Loan.MonthlyPayment| * 12
      schedule := p.Financial.Loan.AmortizationSchedule
      initialLoanAmount := p.Financial.Normalize.LoanAmount
      termYears := p.Financial.LoanTermYears.Years }
    m 0 ((p.Units.map (fun u => u.Rent)).sum * 12)
    p.Financial.Expenses.TotalYearly p.Financial.PurchasePrice
  rw [hunf, hm]
  exact ⟨projectLoop_length _ _ _ _ _ _ _, hspec.1, hspec.2.1, hspec.2.2.1,
    hspec.2.2.2⟩

/-- C7, concrete check on `basicProperty` over two default-growth years. -/
theorem ProjectCashFlow_growth_spec_witness :
    (ProjectCashFlow basicProperty twoYearConfig).length = 2 ∧
    ((ProjectCashFlow basicProperty twoYearConfig).getD 0
      default).GrossIncome = 12000 ∧
    ((ProjectCashFlow basicProperty twoYearConfig).getD 1
        default).GrossIncome =
      ((ProjectCashFlow basicProperty twoYearConfig).getD 0
        default).GrossIncome * (1 + twoYearConfig.RentGrowthRate) := by
  have h := ProjectCashFlow_growth_spec basicProperty twoYearConfig
    (by norm_num [twoYearConfig])
  have h2 := (h.2.2.2.2 2 le_rfl (by norm_num [twoYearConfig])).1
  norm_num at h2
  refine ⟨h.1, ?_, h2⟩
  rw [h.2.1]
  norm_num [basicProperty, simpleProperty, simpleUnit]

/-! ## C6 — the infeasibility sentinel -/

/-- C6 counterexample: on a property with purchase price −1 the search
interval `[0, −1]` is already below the tolerance, and the loop-free return
path yields `round(−1) = −1` although income (5) strictly exceeds expenses
(0): the claim's "returns −1 exactly when income ≤ expenses" fails in the
only-if direction. -/
theorem FindBreakEvenDownPayment_sentinel_cex :
    c6Property.Financial.Expenses.TotalMonthly <
      (c6Property.Units.map (fun u => u.Rent)).sum ∧
    FindBreakEvenDownPayment c6Property = -1 := by
  constructor
  · norm_num [c6Property, simpleProperty, simpleUnit, zeroExpenses,
      ExpensesMonthly.TotalMonthly]
  · rw [FindBreakEvenDownPayment]
    norm_num [c6Property, simpleProperty, simpleUnit, zeroExpenses,
      ExpensesMonthly.TotalMonthly]
    rw [bisectDownPayment]
    norm_num [c6Property, simpleProperty, decRound0]

/-- C6 (amended): for every property with a nonnegative purchase price,
`FindBreakEvenDownPayment` returns −1 exactly when total monthly rental
income minus total monthly expenses is ≤ 0, and in that case the sentinel
is returned before any bisection step (the searching branch instead rounds
the upper end of a subinterval of `[0, price]`, which is ≥ 0). A negative
purchase price (see the counterexample) can also produce −1. -/
theorem FindBreakEvenDownPayment_sentinel_iff (p : Property)
    (hpp : 0 ≤ p.Financial.PurchasePrice) :
    FindBreakEvenDownPayment p = -1 ↔
      (p.Units.map (fun u => u.Rent)).sum -
        p.Financial.Expenses.TotalMonthly ≤ 0 := by
  constructor
  · intro hres
    by_contra hgt
    rw [FindBreakEvenDownPayment] at hres
    simp only [if_neg hgt] at hres
    have hb := bisectDownPayment_bounds p 0 p.Financial.PurchasePrice
      le_rfl hpp
    have h2 : (0 : ℚ) ≤ (bisectDownPayment p 0 p.Financial.PurchasePrice).2 :=
      hb.2.2
    rw [decRound0, if_pos h2] at hres
    have hfl : (0 : ℤ) ≤
        ⌊(bisectDownPayment p 0 p.Financial.PurchasePrice).2 + 1 / 2⌋ := by
      apply Int.floor_nonneg.mpr
      linarith
    have hm1 : ⌊(bisectDownPayment p 0 p.Financial.PurchasePrice).2 +
        1 / 2⌋ = (-1 : ℤ) := by
      exact_mod_cast hres
    omega
  · intro hle
    rw [FindBreakEvenDownPayment]
    simp only [if_pos hle]

/-- C6, concrete check: the sentinel on an infeasible zero-income property,
through the amended theorem. -/
theorem FindBreakEvenDownPayment_sentinel_iff_witness :
    FindBreakEvenDownPayment (simpleProperty [] zeroFinancial) = -1 :=
  (FindBreakEvenDownPayment_sentinel_iff (simpleProperty [] zeroFinancial)
    le_rfl).mpr (by norm_num [simpleProperty, zeroFinancial, zeroExpenses,
      ExpensesMonthly.TotalMonthly])

/-! ## C3 — the break-even down payment search -/

/-- C3 counterexample: on `c3Property` (income 1/2 > expenses 0, purchase
price 0.6) the search interval `[0, 0.6]` is below the $100 tolerance, so
the untested upper bound is returned as `round(0.6) = 1`; substituted into a
scenario it produces the truncated principal `int64(0.6) − int64(1) = −1`,
whose absolute payment exceeds the 1/2 income margin: the returned down
payment yields NEGATIVE monthly cash flow, refuting the claim's first
conjunct. -/
theorem FindBreakEvenDownPayment_tightness_cex :
    c3Property.Financial.Expenses.TotalMonthly <
      (c3Property.Units.map (fun u => u.Rent)).sum ∧
    FindBreakEvenDownPayment c3Property = 1 ∧
    (analyzeScenario c3Property
      (searchScenario c3Property
        (FindBreakEvenDownPayment c3Property))).MonthlyCashFlow < 0 := by
  have hexp : c3Property.Financial.Expenses.TotalMonthly <
      (c3Property.Units.map (fun u => u.Rent)).sum := by
    norm_num [c3Property, simpleProperty, simpleUnit, zeroExpenses,
      ExpensesMonthly.TotalMonthly]
  have hD : FindBreakEvenDownPayment c3Property = 1 := by
    rw [FindBreakEvenDownPayment]
    norm_num [c3Property, simpleProperty, simpleUnit, zeroExpenses,
      ExpensesMonthly.TotalMonthly]
    rw [bisectDownPayment]
    norm_num [c3Property, simpleProperty, decRound0]
  refine ⟨hexp, hD, ?_⟩
  rw [hD]
  norm_num [analyzeScenario, searchScenario, AnalyzeCashFlow, c3Property,
    simpleProperty, simpleUnit, zeroExpenses, ExpensesMonthly.TotalMonthly,
    ExpensesMonthly.TotalYearly, Financial.Loan, Financial.Normalize,
    Financial.InterestRatePercent, NewLoan, NewInterestRate,
    InterestRate.Decimal, Loan.MonthlyPayment, goInt64, LoanTerm.Years]
  rw [abs_of_pos] <;> norm_num

/-- C3 (amended): for every property whose income strictly exceeds its
expenses, `FindBreakEvenDownPayment` returns the final interval's upper
bound rounded to the nearest dollar; that interval is at most $100 wide, its
upper bound is either the purchase price (returned untested) or a midpoint
whose scenario cash flow tested strictly positive, and its lower bound is
either 0 (untested) or a midpoint whose scenario cash flow tested
non-positive. (Because of the rounding and the untested endpoints, the
returned dollar amount itself need not yield non-negative cash flow, and
$100 less need not yield negative cash flow — see the counterexample.) -/
theorem FindBreakEvenDownPayment_bracket_spec (p : Property)
    (h : p.Financial.Expenses.TotalMonthly <
      (p.Units.map (fun u => u.Rent)).sum) :
    ((bisectDownPayment p 0 p.Financial.PurchasePrice).2 =
        p.Financial.PurchasePrice ∨
      (analyzeScenario p (searchScenario p
        (bisectDownPayment p 0 p.Financial.PurchasePrice).2)).IsPositive =
        true) ∧
    ((bisectDownPayment p 0 p.Financial.PurchasePrice).1 = 0 ∨
      (analyzeScenario p (searchScenario p
        (bisectDownPayment p 0 p.Financial.PurchasePrice).1)).IsPositive =
        false) ∧
    (bisectDownPayment p 0 p.Financial.PurchasePrice).2 -
        (bisectDownPayment p 0 p.Financial.PurchasePrice).1 ≤ 100 ∧
    FindBreakEvenDownPayment p =
      decRound0 (bisectDownPayment p 0 p.Financial.PurchasePrice).2 := by
  have hinv := bisectDownPayment_inv p 0 p.Financial.PurchasePrice
  refine ⟨hinv.1, hinv.2.1, hinv.2.2, ?_⟩
  rw [FindBreakEvenDownPayment]
  rw [if_neg (by simp only [not_le]; linarith)]

/-- C3, concrete check of the amended bracket property on `basicProperty`
(income 1000 over 30-year 5% financing of a 100,000 purchase). -/
theorem FindBreakEvenDownPayment_bracket_spec_witness :
    ((bisectDownPayment basicProperty 0
        basicProperty.Financial.PurchasePrice).2 =
        basicProperty.Financial.PurchasePrice ∨
      (analyzeScenario basicProperty (searchScenario basicProperty
        (bisectDownPayment basicProperty 0
          basicProperty.Financial.PurchasePrice).2)).IsPositive = true) ∧
    ((bisectDownPayment basicProperty 0
        basicProperty.Financial.PurchasePrice).1 = 0 ∨
      (analyzeScenario basicProperty (searchScenario basicProperty
        (bisectDownPayment basicProperty 0
          basicProperty.Financial.PurchasePrice).1)).IsPositive = false) ∧
    (bisectDownPayment basicProperty 0
        basicProperty.Financial.PurchasePrice).2 -
        (bisectDownPayment basicProperty 0
          basicProperty.Financial.PurchasePrice).1 ≤ 100 ∧
    FindBreakEvenDownPayment basicProperty =
      decRound0 (bisectDownPayment basicProperty 0
        basicProperty.Financial.PurchasePrice).2 :=
  FindBreakEvenDownPayment_bracket_spec basicProperty
    (by norm_num [basicProperty, basicFinancial, simpleProperty, simpleUnit,
      zeroExpenses, ExpensesMonthly.TotalMonthly])

/-! ## C4 — division guards in the cash flow analyzer -/

/-- C4 counterexample: on a property with down payment 0 and purchase price
100,000, `Financial.Loan()` normalizes the down payment to 20,000 before
`AnalyzeCashFlow` reads it, so the cash-on-cash guard sees 20,000 > 0 and
computes a non-zero (negative) ratio: the claim's "down payment 0 ⇒
cash-on-cash stays 0" fails on the code. -/
theorem AnalyzeCashFlow_cashOnCash_cex :
    c4Property.Financial.DownPayment = 0 ∧
    (AnalyzeCashFlow c4Property).CashOnCash ≠ 0 := by
  constructor
  · rfl
  · norm_num [AnalyzeCashFlow, c4Property, simpleProperty, zeroExpenses,
      Financial.Normalize, Financial.Loan, Financial.InterestRatePercent,
      NewLoan, NewInterestRate, InterestRate.Decimal, Loan.MonthlyPayment,
      goInt64, ExpensesMonthly.TotalMonthly, ExpensesMonthly.TotalYearly,
      LoanTerm.Years]

/-- C4 (amended): every ratio guard of `AnalyzeCashFlow` holds as the claim
states except cash-on-cash, whose guard reads the down payment after
`Financial.Loan()` normalized it: a zero down payment stays zero (and the
ratio stays 0) only when the purchase price is not positive; the cash-flow
fields are always produced. -/
theorem AnalyzeCashFlow_zero_guards (p : Property) :
    (p.Financial.PurchasePrice = 0 → (AnalyzeCashFlow p).CapRate = 0) ∧
    (p.Financial.DownPayment = 0 → p.Financial.PurchasePrice ≤ 0 →
      (AnalyzeCashFlow p).CashOnCash = 0) ∧
    ((AnalyzeCashFlow p).AnnualGrossIncome = 0 →
      (AnalyzeCashFlow p).GRM = 0 ∧
      (AnalyzeCashFlow p).BreakEvenRatio = 0) ∧
    ((AnalyzeCashFlow p).AnnualMortgage = 0 →
      (AnalyzeCashFlow p).DSCR = 0) ∧
    (AnalyzeCashFlow p).MonthlyCashFlow =
      (AnalyzeCashFlow p).MonthlyNOI - (AnalyzeCashFlow p).MonthlyMortgage ∧
    (AnalyzeCashFlow p).AnnualCashFlow =
      (AnalyzeCashFlow p).AnnualNOI - (AnalyzeCashFlow p).AnnualMortgage := by
  refine ⟨?_, ?_, ?_, ?_, rfl, rfl⟩
  · intro h
    simp only [AnalyzeCashFlow]
    rw [if_neg]
    rw [Normalize_PurchasePrice, h]
    norm_num
  · intro h0 hle
    simp only [AnalyzeCashFlow]
    rw [if_neg]
    rw [Normalize_of_not_pos p.Financial hle, h0]
    norm_num
  · intro h
    have h12 : (p.Units.map (fun u => u.Rent)).sum * 12 = 0 := h
    constructor <;> simp only [AnalyzeCashFlow] <;> rw [if_neg] <;>
      rw [h12] <;> norm_num
  · intro h
    have h12 : |p.Financial.Loan.MonthlyPayment| * 12 = 0 := h
    simp only [AnalyzeCashFlow]
    rw [if_neg]
    rw [h12]
    norm_num

/-- C4, concrete check: on the all-zero property every guarded ratio stays
zero while the cash-flow fields are produced. -/
theorem AnalyzeCashFlow_zero_guards_witness :
    (AnalyzeCashFlow (simpleProperty [] zeroFinancial)).CapRate = 0 ∧
    (AnalyzeCashFlow (simpleProperty [] zeroFinancial)).CashOnCash = 0 ∧
    (AnalyzeCashFlow (simpleProperty [] zeroFinancial)).GRM = 0 ∧
    (AnalyzeCashFlow (simpleProperty [] zeroFinancial)).DSCR = 0 := by
  have h := AnalyzeCashFlow_zero_guards (simpleProperty [] zeroFinancial)
  refine ⟨h.1 rfl, h.2.1 rfl le_rfl, (h.2.2.1 ?_).1, h.2.2.2.1 ?_⟩
  · norm_num [AnalyzeCashFlow, simpleProperty]
  · norm_num [AnalyzeCashFlow, simpleProperty, zeroFinancial, zeroExpenses,
      Financial.Loan, Financial.Normalize, Financial.InterestRatePercent,
      NewLoan, NewInterestRate, InterestRate.Decimal, Loan.MonthlyPayment,
      goInt64, LoanTerm.Years]

end RealEstate
